import Mathlib

/-!
# Verification of `sanitize-template.py`

A shallow embedding of the template-sanitization script in Lean 4, together
with theorems settling the specification's claims about it.

Modelling conventions:
* Python strings are Lean `String`s (ASCII-accurate versions of `str.lower`,
  `str.title`, `str.replace`, and the `in` substring test are defined below).
* `pathlib.Path` values are modelled by `PathM`: an optional drive string
  (always `""` on POSIX), an absolute flag, and a component list.
* External libraries (the `re` module, BeautifulSoup parsing/serialization,
  CSS selector matching) are modelled as parameters bundled in `Prims`.
* The network (`urllib.request.urlretrieve`) is modelled by an oracle
  `fetch : String → String → Bool` giving the success of retrieving a URL
  into a local path; the mutable run state `SanState` carries the
  `downloaded_assets` set, the log, the processed-file counter, and an
  instrumentation counter `fetchCount` counting `urlretrieve` invocations.
* Python's `set` of strings is modelled as a duplicate-free `List String`
  via `setAdd`.
-/

/-! ## String utilities (ASCII models of the Python primitives used) -/

/-- `listPrefixEq pat s` is true when `pat` is a prefix of `s`. -/
def listPrefixEq : List Char → List Char → Bool
  | [], _ => true
  | _ :: _, [] => false
  | a :: as, b :: bs => a == b && listPrefixEq as bs

/-- `listHasInfix pat s` is true when `pat` occurs contiguously in `s`;
models Python's `pat in s` on strings. -/
def listHasInfix (pat : List Char) : List Char → Bool
  | [] => listPrefixEq pat []
  | c :: rest => listPrefixEq pat (c :: rest) || listHasInfix pat rest

/-- Python's substring test `pat in s`. -/
def strContains (s pat : String) : Bool :=
  listHasInfix pat.toList s.toList

/-- Auxiliary for `pyTitle`: the flag records whether the previous character
was a cased (alphabetic) character. -/
def pyTitleAux : Bool → List Char → List Char
  | _, [] => []
  | prevCased, c :: rest =>
    if c.isAlpha then
      (if prevCased then c.toLower else c.toUpper) :: pyTitleAux true rest
    else
      c :: pyTitleAux false rest

/-- ASCII model of Python's `str.title()`: each alphabetic character that
follows a non-alphabetic one is uppercased, the rest are lowercased. -/
def pyTitle (s : String) : String :=
  String.mk (pyTitleAux false s.toList)

/-- Python's `s.replace('-', ' ')`. -/
def replaceHyphens (s : String) : String :=
  String.mk (s.toList.map (fun c => if c = '-' then ' ' else c))

/-- Python's `s.lower()` (ASCII). -/
def pyLower (s : String) : String :=
  String.mk (s.toList.map Char.toLower)

/-- Substring replacement, used to model `str.format` with a single
`{project_name}` placeholder. The fuel argument (instantiated with the
input's length, which bounds the number of steps) keeps the recursion
structural. -/
def replaceSubFuel (pat rep : List Char) : Nat → List Char → List Char
  | _, [] => []
  | 0, s => s
  | fuel + 1, c :: rest =>
    if !pat.isEmpty && listPrefixEq pat (c :: rest) then
      rep ++ replaceSubFuel pat rep fuel (List.drop pat.length (c :: rest))
    else
      c :: replaceSubFuel pat rep fuel rest

/-- Model of `template.format(project_name=pn)` for templates whose only
placeholder is `{project_name}`. -/
def formatTemplate (tmpl pn : String) : String :=
  String.mk (replaceSubFuel "{project_name}".toList pn.toList tmpl.toList.length tmpl.toList)

/-- Extract the part of a URL after the first `"://"`, if any. -/
def afterScheme : List Char → Option (List Char)
  | ':' :: '/' :: '/' :: rest => some rest
  | _ :: rest => afterScheme rest
  | [] => none

/-- Characters of a URL authority up to the first `/`. -/
def takeUntilSlash : List Char → List Char
  | [] => []
  | c :: rest => if c = '/' then [] else c :: takeUntilSlash rest

/-- Model of `urlparse(url).netloc` for `scheme://host/...`-shaped URLs:
the text between the first `"://"` and the next `/` (empty when the URL has
no scheme separator). -/
def netloc (url : String) : String :=
  match afterScheme url.toList with
  | some rest => String.mk (takeUntilSlash rest)
  | none => ""

/-! ## Path model -/

/-- Model of `pathlib.Path` / `os.path` paths: a drive (always `""` on
POSIX; nonempty drives model Windows paths, which is how two paths can fail
to be relatable), an absolute flag, and the list of components. -/
structure PathM where
  drive : String := ""
  absolute : Bool := true
  comps : List String
deriving DecidableEq, Repr

/-- Model of Python's `str(path)`. -/
def pathStr (p : PathM) : String :=
  p.drive ++ (if p.absolute then "/" else "") ++ String.intercalate "/" p.comps

/-- `path.parent`. -/
def PathM.parent (p : PathM) : PathM :=
  { p with comps := p.comps.dropLast }

/-- `path.name`: the final component (empty for a bare root). -/
def PathM.name (p : PathM) : String :=
  (p.comps.getLast?).getD ""

/-- `path / child`. -/
def PathM.child (p : PathM) (n : String) : PathM :=
  { p with comps := p.comps ++ [n] }

/-- Length of the longest common prefix of two component lists. -/
def commonPrefixLen : List String → List String → Nat
  | a :: as, b :: bs => if a = b then commonPrefixLen as bs + 1 else 0
  | _, _ => 0

/-- Model of `os.path.relpath(toF, start)`: fails (Python raises
`ValueError`) when the two paths are on different drives; otherwise walks up
from `start` past the common prefix and back down into `toF`. -/
def relpathExc (toF start : PathM) : Except Unit (List String) :=
  if toF.drive ≠ start.drive then Except.error ()
  else
    let i := commonPrefixLen toF.comps start.comps
    Except.ok (List.replicate (start.comps.length - i) ".." ++ toF.comps.drop i)

/-- `TemplateSanitizer.get_relative_path`: the relative path from
`from_file.parent` to `to_file`, falling back to `str(to_file)` when
`os.path.relpath` raises `ValueError` (different drives). Total by
construction — it never raises. -/
def getRelativePath (fromFile toFile : PathM) : String :=
  match relpathExc toFile fromFile.parent with
  | Except.ok [] => "."
  | Except.ok comps => String.intercalate "/" comps
  | Except.error _ => pathStr toFile

/-! ## Run state, logging, the downloaded-asset set -/

/-- Severity of a log entry. -/
inductive LogLevel where
  | INFO
  | ERROR
deriving DecidableEq, Repr

/-- An entry of `self.report` (the running log). -/
structure LogEntry where
  level : LogLevel
  message : String
deriving DecidableEq, Repr

/-- Insertion into a Python `set` modelled as a duplicate-free list:
a member is not added again. -/
def setAdd (s : List String) (x : String) : List String :=
  if x ∈ s then s else s ++ [x]

/-- The mutable state of one sanitizer run: `downloaded_assets`,
`processed_files`, the log (`self.report`), and an instrumentation counter
`fetchCount` counting how many times `urllib.request.urlretrieve` was
invoked (each call of `download_asset` performs exactly one attempt). -/
structure SanState where
  downloadedAssets : List String
  processedFiles : Nat
  log : List LogEntry
  fetchCount : Nat
deriving DecidableEq, Repr

/-- The state set up by `TemplateSanitizer.__init__`. -/
def initState : SanState :=
  { downloadedAssets := [], processedFiles := 0, log := [], fetchCount := 0 }

/-- Append a log entry (`TemplateSanitizer.log`). -/
def logMsg (st : SanState) (level : LogLevel) (message : String) : SanState :=
  { st with log := st.log ++ [⟨level, message⟩] }

/-! ## Configuration (the loaded `sanitize-config.yml` document) -/

/-- One entry of `config['remove_elements']`: a CSS selector and an optional
case-insensitive content pattern. -/
structure RemoveRule where
  selector : String
  containsPat : Option String
deriving Repr

/-- `config['pages']['contact']`. -/
structure ContactPage where
  title : String
  description : String
deriving Repr

/-- `config['pages']['case_studies']`: templates with a `{project_name}`
placeholder. -/
structure CaseStudiesPage where
  titleTemplate : String
  descriptionTemplate : String
deriving Repr

/-- `config['personal']`. -/
structure PersonalCfg where
  name : String
  title : String
  description : String
deriving Repr

/-- `config['assets']`. -/
structure AssetsCfg where
  downloadExternal : Bool
  vendorDomains : List String
  localPath : PathM
deriving Repr

/-- One entry of `config['attribute_replacements']`. -/
structure AttrReplacement where
  fromAttr : String
  toAttr : String
deriving Repr

/-- The parts of the loaded configuration used by the sanitization passes. -/
structure SanConfig where
  removeElements : List RemoveRule
  contact : ContactPage
  caseStudies : CaseStudiesPage
  personal : PersonalCfg
  assets : AssetsCfg
  attributeReplacements : List AttrReplacement

/-! ## AssetResolver: `download_asset` and `should_download_asset` -/

/-- `TemplateSanitizer.download_asset`: always attempts the network fetch
(one `urlretrieve` call, counted in `fetchCount`); on success the local path
is added to `downloaded_assets` and `true` is returned, on failure the set
is left unchanged, an ERROR entry is logged, and `false` is returned.
`fetch` is the network oracle. -/
def downloadAsset (fetch : String → String → Bool) (url : String)
    (localPath : String) (st : SanState) : Bool × SanState :=
  if fetch url localPath then
    (true,
      logMsg { st with downloadedAssets := setAdd st.downloadedAssets localPath,
                       fetchCount := st.fetchCount + 1 }
        LogLevel.INFO ("Downloaded: " ++ url ++ " -> " ++ localPath))
  else
    (false,
      logMsg { st with fetchCount := st.fetchCount + 1 }
        LogLevel.ERROR ("Failed to download " ++ url))

/-- `TemplateSanitizer.should_download_asset`: localization must be enabled
and some configured vendor domain must occur in the URL's netloc. -/
def shouldDownloadAsset (cfg : SanConfig) (url : String) : Bool :=
  cfg.assets.downloadExternal &&
    cfg.assets.vendorDomains.any (fun d => strContains (netloc url) d)

/-! ## Page classification: `_get_page_title` / `_get_page_description` -/

/-- The humanization step of the case-study branch:
`parent.name.replace('-', ' ').title()`. -/
def humanizeProjectName (s : String) : String :=
  pyTitle (replaceHyphens s)

/-- `TemplateSanitizer._get_page_title`. -/
def getPageTitle (cfg : SanConfig) (filePath : PathM) : String :=
  if strContains (pyLower (pathStr filePath)) "contact" then
    cfg.contact.title
  else if strContains (pathStr filePath) "work/" then
    formatTemplate cfg.caseStudies.titleTemplate
      (humanizeProjectName filePath.parent.name)
  else
    cfg.personal.name ++ " - " ++ cfg.personal.title

/-- `TemplateSanitizer._get_page_description`. -/
def getPageDescription (cfg : SanConfig) (filePath : PathM) : String :=
  if strContains (pyLower (pathStr filePath)) "contact" then
    cfg.contact.description
  else if strContains (pathStr filePath) "work/" then
    formatTemplate cfg.caseStudies.descriptionTemplate
      (humanizeProjectName filePath.parent.name)
  else
    cfg.personal.description

/-- The page classes recognized by the classification chain. -/
inductive PageClass where
  | contact
  | caseStudy
  | home
deriving DecidableEq, Repr

/-- The classification chain shared by `_get_page_title` and
`_get_page_description`: first-match-wins over (contact, case-study,
default). -/
def classifyPage (filePath : PathM) : PageClass :=
  if strContains (pyLower (pathStr filePath)) "contact" then PageClass.contact
  else if strContains (pathStr filePath) "work/" then PageClass.caseStudy
  else PageClass.home

/-- The title each page class produces. -/
def titleForClass (cfg : SanConfig) (filePath : PathM) : PageClass → String
  | PageClass.contact => cfg.contact.title
  | PageClass.caseStudy =>
      formatTemplate cfg.caseStudies.titleTemplate
        (humanizeProjectName filePath.parent.name)
  | PageClass.home => cfg.personal.name ++ " - " ++ cfg.personal.title

/-- The description each page class produces. -/
def descForClass (cfg : SanConfig) (filePath : PathM) : PageClass → String
  | PageClass.contact => cfg.contact.description
  | PageClass.caseStudy =>
      formatTemplate cfg.caseStudies.descriptionTemplate
        (humanizeProjectName filePath.parent.name)
  | PageClass.home => cfg.personal.description

/-! ## The document model -/

/-- A generic element of the parsed tree, as seen by the removal pass
(`soup.select`) and the attribute pass (`soup.find_all`).
`selectorsMatched` abstracts BeautifulSoup's CSS matching: the selectors
this element matches. `attrs` is the attribute dictionary as an
association list. -/
structure DomElement where
  selectorsMatched : List String
  text : String
  attrs : List (String × String)
deriving Repr

/-- A `<link rel="icon">` tag: its `href` and its serialized text
(`str(link)`, against which the media-query hints are tested). -/
structure IconLink where
  href : String
  tagStr : String
deriving DecidableEq, Repr

/-- The parsed document (`soup`), restricted to what the passes touch: the
specifically looked-up metadata tags as optional contents (`None` = tag
absent; a present tag's missing attribute reads as `""` via `.get`), the
icon links, and the generic element list used by the removal and attribute
passes. -/
structure HtmlDoc where
  title : Option String
  metaDescription : Option String
  ogTitle : Option String
  ogDescription : Option String
  twitterTitle : Option String
  twitterDescription : Option String
  ogImage : Option String
  twitterImage : Option String
  iconLinks : List IconLink
  elements : List DomElement
deriving Repr

/-- External-library primitives the pipeline is parameterized over:
`re.search(..., IGNORECASE)`, the `re.sub` of the vendor-CSS pattern,
BeautifulSoup parsing and serialization. -/
structure Prims where
  reSearchCI : String → String → Bool
  cssStrip : String → String
  parse : String → HtmlDoc
  serialize : HtmlDoc → String

/-! ## MetadataRewriter: `sanitize_metadata` -/

/-- The text the `contains` pattern is tested against: the element's text
plus a space plus its attribute values joined by spaces. -/
def elementCombined (e : DomElement) : String :=
  e.text ++ " " ++ String.intercalate " " (e.attrs.map (fun a => a.2))

/-- Whether a removal rule removes (`decompose`s) an element: the element
matches the selector and, when a `contains` pattern is configured, the
pattern matches (case-insensitively) the element's combined text. -/
def ruleRemoves (prim : Prims) (r : RemoveRule) (e : DomElement) : Bool :=
  e.selectorsMatched.contains r.selector &&
    match r.containsPat with
    | none => true
    | some pat => prim.reSearchCI pat (elementCombined e)

/-- The removal loop of `sanitize_metadata`: rules applied in order, each
removing every currently remaining matching element and counting one change
per removed element. -/
def applyRemoveRules (prim : Prims) :
    List RemoveRule → List DomElement → List DomElement × Nat
  | [], els => (els, 0)
  | r :: rs, els =>
    let removed := (els.filter (fun e => ruleRemoves prim r e)).length
    let kept := els.filter (fun e => !(ruleRemoves prim r e))
    let rest := applyRemoveRules prim rs kept
    (rest.1, removed + rest.2)

/-- One metadata-tag overwrite (`if tag: tag[...] = new; changes += 1`): a
present tag's content is unconditionally replaced and counts one change,
an absent tag is skipped. -/
def updateTag (tag : Option String) (newVal : String) : Option String × Nat :=
  match tag with
  | some _ => (some newVal, 1)
  | none => (none, 0)

/-- `TemplateSanitizer.sanitize_metadata`: element removal, then overwrite
of title, description, og:title, og:description, twitter:title and
twitter:description wherever present. -/
def sanitizeMetadata (prim : Prims) (cfg : SanConfig) (doc : HtmlDoc)
    (filePath : PathM) : HtmlDoc × Nat :=
  let rem := applyRemoveRules prim cfg.removeElements doc.elements
  let newTitle := getPageTitle cfg filePath
  let newDesc := getPageDescription cfg filePath
  ({ doc with
      elements := rem.1,
      title := (updateTag doc.title newTitle).1,
      metaDescription := (updateTag doc.metaDescription newDesc).1,
      ogTitle := (updateTag doc.ogTitle newTitle).1,
      ogDescription := (updateTag doc.ogDescription newDesc).1,
      twitterTitle := (updateTag doc.twitterTitle newTitle).1,
      twitterDescription := (updateTag doc.twitterDescription newDesc).1 },
    rem.2 + (updateTag doc.title newTitle).2
      + (updateTag doc.metaDescription newDesc).2
      + (updateTag doc.ogTitle newTitle).2
      + (updateTag doc.ogDescription newDesc).2
      + (updateTag doc.twitterTitle newTitle).2
      + (updateTag doc.twitterDescription newDesc).2)

/-! ## Asset localization: `sanitize_assets` -/

/-- The favicon-variant classification of `sanitize_assets`
(lines 209–215): the light hint is tested before the dark hint. -/
def faviconFilename (href tagStr : String) : String :=
  if strContains href "light" || strContains tagStr "prefers-color-scheme: light" then
    "favicon-light.png"
  else if strContains href "dark" || strContains tagStr "prefers-color-scheme: dark" then
    "favicon-dark.png"
  else
    "favicon.png"

/-- The body of the favicon loop for one `<link rel="icon">`: when the href
is eligible, download to `assets_dir / faviconFilename`; on success rewrite
the href to the relative local path and count one change, on failure leave
the link untouched. -/
def processIconLink (cfg : SanConfig) (fetch : String → String → Bool)
    (filePath : PathM) (l : IconLink) (st : SanState) :
    IconLink × Nat × SanState :=
  if shouldDownloadAsset cfg l.href then
    let localPath := cfg.assets.localPath.child (faviconFilename l.href l.tagStr)
    let dl := downloadAsset fetch l.href (pathStr localPath) st
    if dl.1 then
      ({ l with href := getRelativePath filePath localPath }, 1, dl.2)
    else
      (l, 0, dl.2)
  else
    (l, 0, st)

/-- The favicon loop of `sanitize_assets` over all icon links, threading
the run state. -/
def iconPass (cfg : SanConfig) (fetch : String → String → Bool)
    (filePath : PathM) : List IconLink → SanState →
    List IconLink × Nat × SanState
  | [], st => ([], 0, st)
  | l :: ls, st =>
    let r := processIconLink cfg fetch filePath l st
    let rest := iconPass cfg fetch filePath ls r.2.2
    (r.1 :: rest.1, r.2.1 + rest.2.1, rest.2.2)

/-- The shared local path of both social-preview images:
`assets_dir / 'og-preview.png'`. -/
def ogPreviewPath (cfg : SanConfig) : PathM :=
  cfg.assets.localPath.child "og-preview.png"

/-- The og:image block of `sanitize_assets`: when the tag is present and
its content eligible, download to the shared preview path; on success
rewrite the content to the relative local path and count one change. -/
def ogPass (cfg : SanConfig) (fetch : String → String → Bool)
    (doc : HtmlDoc) (filePath : PathM) (st : SanState) :
    HtmlDoc × Nat × SanState :=
  match doc.ogImage with
  | some url =>
    if shouldDownloadAsset cfg url then
      let localPath := ogPreviewPath cfg
      let dl := downloadAsset fetch url (pathStr localPath) st
      if dl.1 then
        ({ doc with ogImage := some (getRelativePath filePath localPath) }, 1, dl.2)
      else
        (doc, 0, dl.2)
    else
      (doc, 0, st)
  | none => (doc, 0, st)

/-- The twitter:image block of `sanitize_assets`: same shape as the
og:image block, with the same shared local path. -/
def twitterPass (cfg : SanConfig) (fetch : String → String → Bool)
    (doc : HtmlDoc) (filePath : PathM) (st : SanState) :
    HtmlDoc × Nat × SanState :=
  match doc.twitterImage with
  | some url =>
    if shouldDownloadAsset cfg url then
      let localPath := ogPreviewPath cfg
      let dl := downloadAsset fetch url (pathStr localPath) st
      if dl.1 then
        ({ doc with twitterImage := some (getRelativePath filePath localPath) }, 1, dl.2)
      else
        (doc, 0, dl.2)
    else
      (doc, 0, st)
  | none => (doc, 0, st)

/-- `TemplateSanitizer.sanitize_assets`: favicons, then og:image, then
twitter:image. -/
def sanitizeAssets (cfg : SanConfig) (fetch : String → String → Bool)
    (doc : HtmlDoc) (filePath : PathM) (st : SanState) :
    HtmlDoc × Nat × SanState :=
  let icons := iconPass cfg fetch filePath doc.iconLinks st
  let doc1 := { doc with iconLinks := icons.1 }
  let og := ogPass cfg fetch doc1 filePath icons.2.2
  let tw := twitterPass cfg fetch og.1 filePath og.2.2
  (tw.1, icons.2.1 + og.2.1 + tw.2.1, tw.2.2)

/-! ## AttributeRenamer: `sanitize_attributes` -/

/-- Attribute lookup in the association-list model of the attribute dict. -/
def attrGet (e : DomElement) (k : String) : Option String :=
  (e.attrs.find? (fun a => a.1 == k)).map (fun a => a.2)

/-- `element[k] = v`: overwrite an existing binding or append a new one. -/
def attrSet (e : DomElement) (k v : String) : DomElement :=
  if e.attrs.any (fun a => a.1 == k) then
    { e with attrs := e.attrs.map (fun a => if a.1 == k then (k, v) else a) }
  else
    { e with attrs := e.attrs ++ [(k, v)] }

/-- `del element[k]`. -/
def attrDel (e : DomElement) (k : String) : DomElement :=
  { e with attrs := e.attrs.filter (fun a => !(a.1 == k)) }

/-- The body of the rename loop for one element and one replacement pair:
an element carrying `fromAttr` gets its value copied to `toAttr`
(overwriting any existing value), `fromAttr` deleted, and one change
counted; other elements are untouched. -/
def renameOnElement (rep : AttrReplacement) (e : DomElement) : DomElement × Nat :=
  match attrGet e rep.fromAttr with
  | some v => (attrDel (attrSet e rep.toAttr v) rep.fromAttr, 1)
  | none => (e, 0)

/-- One replacement pair applied to all elements
(`soup.find_all(attrs={from_attr: True})` loop). -/
def renamePassOne (rep : AttrReplacement) :
    List DomElement → List DomElement × Nat
  | [] => ([], 0)
  | e :: es =>
    let r := renameOnElement rep e
    let rest := renamePassOne rep es
    (r.1 :: rest.1, r.2 + rest.2)

/-- `TemplateSanitizer.sanitize_attributes`: all replacement pairs in
order. -/
def sanitizeAttributesList (reps : List AttrReplacement)
    (els : List DomElement) : List DomElement × Nat :=
  match reps with
  | [] => (els, 0)
  | rep :: rest =>
    let r := renamePassOne rep els
    let rst := sanitizeAttributesList rest r.1
    (rst.1, r.2 + rst.2)

/-- `TemplateSanitizer.sanitize_attributes` on the document. -/
def sanitizeAttributes (cfg : SanConfig) (doc : HtmlDoc) : HtmlDoc × Nat :=
  let r := sanitizeAttributesList cfg.attributeReplacements doc.elements
  ({ doc with elements := r.1 }, r.2)

/-! ## CssPatternStripper and the per-file pipeline -/

/-- `TemplateSanitizer.sanitize_css`: the raw-text `re.sub` of the vendor
CSS fingerprint (the substitution itself is the external `re` primitive);
one change is counted exactly when the text changed. -/
def sanitizeCss (prim : Prims) (content : String) : String × Nat :=
  let stripped := prim.cssStrip content
  (stripped, if stripped = content then 0 else 1)

/-- The document-transformation part of `TemplateSanitizer.process_file`:
CSS strip on raw text, parse, metadata pass, asset pass, attribute pass;
returns the final tree, the total change count (the sum of the four pass
counts), and the threaded run state. -/
def processDoc (prim : Prims) (cfg : SanConfig)
    (fetch : String → String → Bool) (filePath : PathM) (content : String)
    (st : SanState) : HtmlDoc × Nat × SanState :=
  let css := sanitizeCss prim content
  let doc0 := prim.parse css.1
  let meta := sanitizeMetadata prim cfg doc0 filePath
  let assets := sanitizeAssets cfg fetch meta.1 filePath st
  let attrs := sanitizeAttributes cfg assets.1
  (attrs.1, css.2 + meta.2 + assets.2.1 + attrs.2, assets.2.2)

/-- The terminal outcome of one file's pipeline: serialized back to disk
with its change count, or left untouched. -/
inductive FileOutcome where
  | written (newContent : String) (changes : Nat)
  | unchanged
deriving DecidableEq, Repr

/-- `TemplateSanitizer.process_file`: run the passes, then write the
serialized tree back exactly when the total change count is positive
(bumping `processed_files`); otherwise leave the file untouched. -/
def processFile (prim : Prims) (cfg : SanConfig)
    (fetch : String → String → Bool) (filePath : PathM) (content : String)
    (st : SanState) : FileOutcome × SanState :=
  let r := processDoc prim cfg fetch filePath content st
  if 0 < r.2.1 then
    (FileOutcome.written (prim.serialize r.1) r.2.1,
      logMsg { r.2.2 with processedFiles := r.2.2.processedFiles + 1 }
        LogLevel.INFO ("Made changes to " ++ pathStr filePath))
  else
    (FileOutcome.unchanged,
      logMsg r.2.2 LogLevel.INFO ("No changes needed for " ++ pathStr filePath))

/-! ## RunCoordinator: `run` and the report -/

/-- One discovered file presented to the run loop: its path together with
either its content, or the error message of the exception that reading or
processing it raised (exceptions come only from the external file system,
parser, or network layers, so they are an input of the model). -/
abbrev FileJob : Type := PathM × Except String String

/-- The per-file loop of `TemplateSanitizer.run`: a file whose processing
raises is caught, logged at ERROR level, and the loop continues with the
next file. -/
def runFiles (prim : Prims) (cfg : SanConfig)
    (fetch : String → String → Bool) : List FileJob → SanState → SanState
  | [], st => st
  | (p, Except.ok content) :: rest, st =>
    runFiles prim cfg fetch rest (processFile prim cfg fetch p content st).2
  | (p, Except.error e) :: rest, st =>
    runFiles prim cfg fetch rest
      (logMsg st LogLevel.ERROR ("Error processing " ++ pathStr p ++ ": " ++ e))

/-- Insertion of a string into a sorted list, for the report's sorted
asset listing. -/
def insertSorted (x : String) : List String → List String
  | [] => [x]
  | y :: ys => if decide (x ≤ y) then x :: y :: ys else y :: insertSorted x ys

/-- `sorted(...)` on a list of strings. -/
def sortStrings (l : List String) : List String :=
  l.foldr insertSorted []

/-- The end-of-run report of `generate_report`: processed-file count,
downloaded-asset count, the sorted asset list, and the full log. -/
structure Report where
  filesProcessed : Nat
  assetsDownloadedCount : Nat
  downloadedAssets : List String
  log : List LogEntry
deriving DecidableEq, Repr

/-- `TemplateSanitizer.generate_report` as a pure summary of the final
state. -/
def generateReport (st : SanState) : Report :=
  { filesProcessed := st.processedFiles,
    assetsDownloadedCount := st.downloadedAssets.length,
    downloadedAssets := sortStrings st.downloadedAssets,
    log := st.log }

/-- `TemplateSanitizer.run`: process every discovered file (errors caught
per file), then always assemble the report. -/
def runSanitizer (prim : Prims) (cfg : SanConfig)
    (fetch : String → String → Bool) (files : List FileJob)
    (st : SanState) : Report :=
  generateReport (runFiles prim cfg fetch files st)

/-- An arbitrary sequence of `download_asset` calls (url, local path),
threading the run state; models "any sequence of downloads" in one run. -/
def runDownloads (fetch : String → String → Bool) :
    List (String × String) → SanState → SanState
  | [], st => st
  | (url, lp) :: rest, st =>
    runDownloads fetch rest (downloadAsset fetch url lp st).2

/-! ## Auxiliary definition used in change-count statements -/

/-- The number of changes a single optional metadata tag contributes:
one when present, zero when absent. -/
def countOpt (o : Option String) : Nat :=
  if o.isSome then 1 else 0

/-! ## Concrete instances used by counterexamples and witnesses -/

/-- A concrete configuration: localization enabled for the vendor domain
`vendor.example`, local assets under the relative directory `assets`. -/
def cfgC1 : SanConfig :=
  { removeElements := [],
    contact := ⟨"Contact", "Reach out"⟩,
    caseStudies := ⟨"Case Study: {project_name}", "About {project_name}"⟩,
    personal := ⟨"Jane Doe", "Designer", "Portfolio"⟩,
    assets := ⟨true, ["vendor.example"], ⟨"", false, ["assets"]⟩⟩,
    attributeReplacements := [] }

/-- A document whose og:image and twitter:image tags both reference the
same vendor-hosted preview image. -/
def docC1 : HtmlDoc :=
  { title := none, metaDescription := none, ogTitle := none,
    ogDescription := none, twitterTitle := none, twitterDescription := none,
    ogImage := some "https://vendor.example/preview.png",
    twitterImage := some "https://vendor.example/preview.png",
    iconLinks := [], elements := [] }

/-- A concrete file path. -/
def pC1 : PathM := ⟨"", true, ["site", "index.html"]⟩

/-- A document with a title tag and a vendor-hosted og:image. -/
def docC3 : HtmlDoc :=
  { title := some "Old Title", metaDescription := none, ogTitle := none,
    ogDescription := none, twitterTitle := none, twitterDescription := none,
    ogImage := some "https://vendor.example/preview.png",
    twitterImage := none, iconLinks := [], elements := [] }

/-- Concrete external primitives whose parser yields `docC3`. -/
def primC3 : Prims :=
  { reSearchCI := fun _ _ => false,
    cssStrip := fun s => s,
    parse := fun _ => docC3,
    serialize := fun _ => "" }

/-- A path containing both the `contact` marker and the `work/` segment. -/
def pBoth : PathM := ⟨"", true, ["site", "contact", "work", "project", "index.html"]⟩

/-- A case-study path with parent directory `my-cool-project`. -/
def pCaseStudy : PathM := ⟨"", true, ["site", "work", "my-cool-project", "index.html"]⟩

/-- `/site/work/project/index.html`. -/
def relFromEx : PathM := ⟨"", true, ["site", "work", "project", "index.html"]⟩

/-- `/site/assets/og-preview.png`. -/
def relToEx : PathM := ⟨"", true, ["site", "assets", "og-preview.png"]⟩

/-- A Windows-style path on drive `C:`. -/
def winFromEx : PathM := ⟨"C:", true, ["work", "index.html"]⟩

/-- A Windows-style path on drive `D:`. -/
def winToEx : PathM := ⟨"D:", true, ["assets", "x.png"]⟩

/-- An icon link whose href contains both the `light` and the `dark`
hint. -/
def iconBothHints : IconLink :=
  ⟨"https://vendor.example/light-dark.png", ""⟩

/-- A state that has already downloaded the local path `assets/x.png`. -/
def stWithAsset : SanState :=
  { downloadedAssets := ["assets/x.png"], processedFiles := 0, log := [], fetchCount := 5 }

/-! ## Helper lemmas -/

theorem updateTag_fst (o : Option String) (v : String) :
    (updateTag o v).1 = o.map (fun _ => v) := by
  cases o <;> rfl

theorem updateTag_snd (o : Option String) (v : String) :
    (updateTag o v).2 = countOpt o := by
  cases o <;> rfl

theorem mem_setAdd (s : List String) (x y : String) :
    x ∈ setAdd s y ↔ x ∈ s ∨ x = y := by
  unfold setAdd
  by_cases h : y ∈ s
  · simp only [if_pos h]
    constructor
    · exact Or.inl
    · rintro (hx | rfl)
      · exact hx
      · exact h
  · simp only [if_neg h, List.mem_append, List.mem_singleton]

theorem setAdd_of_mem (s : List String) (x : String) (h : x ∈ s) :
    setAdd s x = s := by
  simp [setAdd, h]

theorem setAdd_setAdd_self (s : List String) (x : String) :
    setAdd (setAdd s x) x = setAdd s x := by
  apply setAdd_of_mem
  rw [mem_setAdd]
  exact Or.inr rfl

theorem downloadAsset_fst (fetch : String → String → Bool) (url lp : String)
    (st : SanState) : (downloadAsset fetch url lp st).1 = fetch url lp := by
  unfold downloadAsset
  by_cases h : fetch url lp <;> simp [h]

theorem downloadAsset_assets (fetch : String → String → Bool) (url lp : String)
    (st : SanState) :
    (downloadAsset fetch url lp st).2.downloadedAssets
      = if fetch url lp then setAdd st.downloadedAssets lp
        else st.downloadedAssets := by
  unfold downloadAsset
  by_cases h : fetch url lp <;> simp [h, logMsg]

theorem downloadAsset_fetchCount (fetch : String → String → Bool)
    (url lp : String) (st : SanState) :
    (downloadAsset fetch url lp st).2.fetchCount = st.fetchCount + 1 := by
  unfold downloadAsset
  by_cases h : fetch url lp <;> simp [h, logMsg]

theorem runFiles_append (prim : Prims) (cfg : SanConfig)
    (fetch : String → String → Bool) (a b : List FileJob) (st : SanState) :
    runFiles prim cfg fetch (a ++ b) st
      = runFiles prim cfg fetch b (runFiles prim cfg fetch a st) := by
  induction a generalizing st with
  | nil => rfl
  | cons j rest ih =>
    obtain ⟨q, job⟩ := j
    cases job <;> simp [runFiles, ih]

theorem mem_runDownloads (fetch : String → String → Bool)
    (reqs : List (String × String)) (st : SanState) (x : String) :
    x ∈ (runDownloads fetch reqs st).downloadedAssets ↔
      x ∈ st.downloadedAssets ∨ ∃ r ∈ reqs, r.2 = x ∧ fetch r.1 r.2 = true := by
  induction reqs generalizing st with
  | nil => simp [runDownloads]
  | cons r rest ih =>
    obtain ⟨url, lp⟩ := r
    rw [runDownloads, ih]
    rw [downloadAsset_assets]
    by_cases h : fetch url lp
    · simp only [if_pos h, mem_setAdd]
      constructor
      · rintro ((hx | rfl) | hr)
        · exact Or.inl hx
        · exact Or.inr ⟨(url, x), by simp [h]⟩
        · obtain ⟨r, hr1, hr2⟩ := hr
          exact Or.inr ⟨r, by simp [hr1], hr2⟩
      · rintro (hx | ⟨r, hr1, hr2⟩)
        · exact Or.inl (Or.inl hx)
        · rw [List.mem_cons] at hr1
          rcases hr1 with rfl | hr1
          · exact Or.inl (Or.inr hr2.1.symm)
          · exact Or.inr ⟨r, hr1, hr2⟩
    · simp only [if_neg h]
      constructor
      · rintro (hx | ⟨r, hr1, hr2⟩)
        · exact Or.inl hx
        · exact Or.inr ⟨r, by simp [hr1], hr2⟩
      · rintro (hx | ⟨r, hr1, hr2⟩)
        · exact Or.inl hx
        · rw [List.mem_cons] at hr1
          rcases hr1 with rfl | hr1
          · exact absurd hr2.2 h
          · exact Or.inr ⟨r, hr1, hr2⟩

theorem twitterPass_ogImage (cfg : SanConfig) (fetch : String → String → Bool)
    (doc : HtmlDoc) (p : PathM) (st : SanState) :
    (twitterPass cfg fetch doc p st).1.ogImage = doc.ogImage := by
  unfold twitterPass
  cases h : doc.twitterImage with
  | none => simp [h]
  | some url =>
    simp only [h]
    split
    · split <;> rfl
    · rfl

theorem sanitizeAttributes_ogImage (cfg : SanConfig) (doc : HtmlDoc) :
    (sanitizeAttributes cfg doc).1.ogImage = doc.ogImage := rfl

theorem ogPass_fail (cfg : SanConfig) (fetch : String → String → Bool)
    (doc : HtmlDoc) (p : PathM) (st : SanState) (url : String)
    (h1 : doc.ogImage = some url) (h2 : shouldDownloadAsset cfg url = true)
    (h3 : fetch url (pathStr (ogPreviewPath cfg)) = false) :
    (ogPass cfg fetch doc p st).1 = doc ∧ (ogPass cfg fetch doc p st).2.1 = 0 := by
  unfold ogPass
  rw [h1]
  simp [h2, downloadAsset_fst, h3]

theorem sanitizeAssets_ogImage_of_fail (cfg : SanConfig)
    (fetch : String → String → Bool) (doc : HtmlDoc) (p : PathM)
    (st : SanState) (url : String) (h1 : doc.ogImage = some url)
    (h2 : shouldDownloadAsset cfg url = true)
    (h3 : fetch url (pathStr (ogPreviewPath cfg)) = false) :
    (sanitizeAssets cfg fetch doc p st).1.ogImage = some url := by
  simp only [sanitizeAssets]
  rw [twitterPass_ogImage]
  have hog := ogPass_fail cfg fetch
    { doc with iconLinks := (iconPass cfg fetch p doc.iconLinks st).1 } p
    (iconPass cfg fetch p doc.iconLinks st).2.2 url (by simpa using h1) h2 h3
  rw [hog.1]
  simpa using h1

/-! ## Claim theorems -/

/-- C2: a processed file is rewritten to disk if and only if its total
change counter — the sum of the CSS, metadata, asset, and attribute pass
counts — is greater than 0 after all passes; a file whose counter is 0
yields the `unchanged` outcome (left byte-for-byte untouched). -/
theorem C2_rewrite_iff_changes (prim : Prims) (cfg : SanConfig)
    (fetch : String → String → Bool) (p : PathM) (content : String)
    (st : SanState) :
    ((processFile prim cfg fetch p content st).1 = FileOutcome.unchanged ↔
      (processDoc prim cfg fetch p content st).2.1 = 0)
    ∧ (0 < (processDoc prim cfg fetch p content st).2.1 ↔
      (processFile prim cfg fetch p content st).1 =
        FileOutcome.written
          (prim.serialize (processDoc prim cfg fetch p content st).1)
          (processDoc prim cfg fetch p content st).2.1)
    ∧ (processDoc prim cfg fetch p content st).2.1 =
        (sanitizeCss prim content).2
        + (sanitizeMetadata prim cfg (prim.parse (sanitizeCss prim content).1) p).2
        + (sanitizeAssets cfg fetch
            (sanitizeMetadata prim cfg (prim.parse (sanitizeCss prim content).1) p).1
            p st).2.1
        + (sanitizeAttributes cfg
            (sanitizeAssets cfg fetch
              (sanitizeMetadata prim cfg (prim.parse (sanitizeCss prim content).1) p).1
              p st).1).2 := by
  refine ⟨?_, ?_, rfl⟩
  · unfold processFile
    by_cases h : 0 < (processDoc prim cfg fetch p content st).2.1
    · simp [h]
      omega
    · simp [h]
      omega
  · unfold processFile
    by_cases h : 0 < (processDoc prim cfg fetch p content st).2.1
    · simp [h]
    · simp [h]

/-- C5: the metadata rewriter overwrites the title, the description meta
tag, and the og:/twitter: title and description tags exactly when each is
present (an absent tag is skipped, stays absent, and raises no error — the
function is total), and its change count is the removal count plus exactly
one per present tag, independent of whether the new value differs from the
old. -/
theorem C5_metadata_overwrite (prim : Prims) (cfg : SanConfig)
    (doc : HtmlDoc) (p : PathM) :
    (sanitizeMetadata prim cfg doc p).1.title
        = doc.title.map (fun _ => getPageTitle cfg p)
    ∧ (sanitizeMetadata prim cfg doc p).1.metaDescription
        = doc.metaDescription.map (fun _ => getPageDescription cfg p)
    ∧ (sanitizeMetadata prim cfg doc p).1.ogTitle
        = doc.ogTitle.map (fun _ => getPageTitle cfg p)
    ∧ (sanitizeMetadata prim cfg doc p).1.ogDescription
        = doc.ogDescription.map (fun _ => getPageDescription cfg p)
    ∧ (sanitizeMetadata prim cfg doc p).1.twitterTitle
        = doc.twitterTitle.map (fun _ => getPageTitle cfg p)
    ∧ (sanitizeMetadata prim cfg doc p).1.twitterDescription
        = doc.twitterDescription.map (fun _ => getPageDescription cfg p)
    ∧ (sanitizeMetadata prim cfg doc p).2
        = (applyRemoveRules prim cfg.removeElements doc.elements).2
          + countOpt doc.title + countOpt doc.metaDescription
          + countOpt doc.ogTitle + countOpt doc.ogDescription
          + countOpt doc.twitterTitle + countOpt doc.twitterDescription := by
  unfold sanitizeMetadata
  simp [updateTag_fst, updateTag_snd]

/-- C6: page classification is a first-match-wins ordered check — a path
matching the `contact` marker is classified contact even if it also
matches the case-study `work/` marker, a non-contact path matching
`work/` is a case study, anything else is the default/home class — and
the title and the description of one path always come from the same
class. -/
theorem C6_classification_order (cfg : SanConfig) (p : PathM) :
    getPageTitle cfg p = titleForClass cfg p (classifyPage p)
    ∧ getPageDescription cfg p = descForClass cfg p (classifyPage p)
    ∧ (strContains (pyLower (pathStr p)) "contact" = true →
        classifyPage p = PageClass.contact)
    ∧ (strContains (pyLower (pathStr p)) "contact" = false →
        strContains (pathStr p) "work/" = true →
        classifyPage p = PageClass.caseStudy)
    ∧ (strContains (pyLower (pathStr p)) "contact" = false →
        strContains (pathStr p) "work/" = false →
        classifyPage p = PageClass.home) := by
  by_cases h1 : strContains (pyLower (pathStr p)) "contact" = true
  · simp [getPageTitle, getPageDescription, classifyPage, titleForClass,
      descForClass, h1]
  · by_cases h2 : strContains (pathStr p) "work/" = true
    · simp [getPageTitle, getPageDescription, classifyPage, titleForClass,
        descForClass, h1, h2]
    · simp [getPageTitle, getPageDescription, classifyPage, titleForClass,
        descForClass, h1, h2]

/-- C6 witness: the path `/site/contact/work/project/index.html` matches
both the contact marker and the case-study marker and is classified as the
contact page, whose title it receives. -/
theorem C6_witness :
    strContains (pyLower (pathStr pBoth)) "contact" = true
    ∧ classifyPage pBoth = PageClass.contact
    ∧ getPageTitle cfgC1 pBoth = titleForClass cfgC1 pBoth (classifyPage pBoth) :=
  ⟨by decide, (C6_classification_order cfgC1 pBoth).2.2.1 (by decide),
    (C6_classification_order cfgC1 pBoth).1⟩

/-- C7: for every case-study path (no contact marker, `work/` segment
present), the interpolated project name is the immediate parent directory
name with hyphen separators replaced by spaces and the result title-cased,
and in particular parent directory `my-cool-project` yields project name
`My Cool Project`. -/
theorem C7_project_name_humanized :
    (∀ (cfg : SanConfig) (p : PathM),
      strContains (pyLower (pathStr p)) "contact" = false →
      strContains (pathStr p) "work/" = true →
      getPageTitle cfg p =
        formatTemplate cfg.caseStudies.titleTemplate
          (pyTitle (replaceHyphens p.parent.name))
      ∧ getPageDescription cfg p =
        formatTemplate cfg.caseStudies.descriptionTemplate
          (pyTitle (replaceHyphens p.parent.name)))
    ∧ humanizeProjectName "my-cool-project" = "My Cool Project" := by
  constructor
  · intro cfg p h1 h2
    constructor
    · simp [getPageTitle, h1, h2, humanizeProjectName]
    · simp [getPageDescription, h1, h2, humanizeProjectName]
  · decide

/-- C7 witness: the case-study path `/site/work/my-cool-project/index.html`
gets the title computed from the humanized project name
`My Cool Project`. -/
theorem C7_witness :
    getPageTitle cfgC1 pCaseStudy =
      formatTemplate cfgC1.caseStudies.titleTemplate
        (pyTitle (replaceHyphens pCaseStudy.parent.name))
    ∧ getPageTitle cfgC1 pCaseStudy = "Case Study: My Cool Project" :=
  ⟨(C7_project_name_humanized.1 cfgC1 pCaseStudy (by decide) (by decide)).1,
    by decide⟩

/-- C8: `get_relative_path` computes the path from the source file's
containing directory to the target and never raises — when the two paths
cannot be related (different drives) it returns the target's absolute
string form — and from `/site/work/project/index.html` to
`/site/assets/og-preview.png` it returns `../../assets/og-preview.png`. -/
theorem C8_relative_path :
    (∀ f t : PathM, t.drive ≠ f.drive → getRelativePath f t = pathStr t)
    ∧ getRelativePath relFromEx relToEx = "../../assets/og-preview.png" := by
  constructor
  · intro f t h
    have hp : f.parent.drive = f.drive := rfl
    unfold getRelativePath relpathExc
    rw [hp]
    simp [h]
  · decide

/-- C8 witness: two paths on different drives (`C:` vs `D:`) fall back to
the target's absolute form. -/
theorem C8_witness : getRelativePath winFromEx winToEx = pathStr winToEx :=
  C8_relative_path.1 winFromEx winToEx (by decide)

/-- C9: the DownloadedAsset set is modified only on a successful fetch — a
failed fetch returns failure and leaves the set exactly as it was — so
after any sequence of downloads in a run the set contains precisely the
local paths of the successfully fetched assets. -/
theorem C9_set_only_on_success :
    (∀ (fetch : String → String → Bool) (url lp : String) (st : SanState),
      (downloadAsset fetch url lp st).1 = fetch url lp
      ∧ (downloadAsset fetch url lp st).2.downloadedAssets
          = (if fetch url lp then setAdd st.downloadedAssets lp
             else st.downloadedAssets))
    ∧ (∀ (fetch : String → String → Bool) (reqs : List (String × String))
        (x : String),
        x ∈ (runDownloads fetch reqs initState).downloadedAssets ↔
          ∃ r ∈ reqs, r.2 = x ∧ fetch r.1 r.2 = true) := by
  constructor
  · intro fetch url lp st
    exact ⟨downloadAsset_fst fetch url lp st, downloadAsset_assets fetch url lp st⟩
  · intro fetch reqs x
    rw [mem_runDownloads]
    simp [initState]

/-- C10: favicon variant classification tests the light hint before the
dark hint — a link matching both maps to `favicon-light.png`, one matching
only the dark hint maps to `favicon-dark.png`, one matching neither maps
to `favicon.png` — and the icon pass downloads an eligible link's asset to
exactly that filename under the local asset directory, rewriting the href
on success. -/
theorem C10_favicon_light_before_dark :
    (∀ href tagStr : String,
      (strContains href "light" || strContains tagStr "prefers-color-scheme: light") = true →
      faviconFilename href tagStr = "favicon-light.png")
    ∧ (∀ href tagStr : String,
      (strContains href "light" || strContains tagStr "prefers-color-scheme: light") = false →
      (strContains href "dark" || strContains tagStr "prefers-color-scheme: dark") = true →
      faviconFilename href tagStr = "favicon-dark.png")
    ∧ (∀ href tagStr : String,
      (strContains href "light" || strContains tagStr "prefers-color-scheme: light") = false →
      (strContains href "dark" || strContains tagStr "prefers-color-scheme: dark") = false →
      faviconFilename href tagStr = "favicon.png")
    ∧ (∀ (cfg : SanConfig) (fetch : String → String → Bool) (p : PathM)
        (l : IconLink) (st : SanState),
        shouldDownloadAsset cfg l.href = true →
        fetch l.href
          (pathStr (cfg.assets.localPath.child (faviconFilename l.href l.tagStr))) = true →
        (processIconLink cfg fetch p l st).1.href =
          getRelativePath p
            (cfg.assets.localPath.child (faviconFilename l.href l.tagStr))) := by
  refine ⟨?_, ?_, ?_, ?_⟩
  · intro href tagStr h
    simp [faviconFilename, h]
  · intro href tagStr h1 h2
    simp [faviconFilename, h1, h2]
  · intro href tagStr h1 h2
    simp [faviconFilename, h1, h2]
  · intro cfg fetch p l st h1 h2
    unfold processIconLink
    simp [h1, downloadAsset_fst, h2]

/-- C10 witness: an icon link whose href contains both `light` and `dark`
is classified as the light variant. -/
theorem C10_witness :
    (strContains iconBothHints.href "light"
      || strContains iconBothHints.tagStr "prefers-color-scheme: light") = true
    ∧ (strContains iconBothHints.href "dark"
      || strContains iconBothHints.tagStr "prefers-color-scheme: dark") = true
    ∧ faviconFilename iconBothHints.href iconBothHints.tagStr = "favicon-light.png" :=
  ⟨by decide, by decide,
    C10_favicon_light_before_dark.1 iconBothHints.href iconBothHints.tagStr (by decide)⟩

/-- C1 counterexample: with og:image and twitter:image both referencing
the same vendor-hosted preview image, one run of the asset pass performs
two network fetches — `download_asset` never consults the
DownloadedAsset set before fetching — refuting "exactly one network
fetch"; only the set entry is deduplicated. -/
theorem C1_counterexample_second_fetch :
    (sanitizeAssets cfgC1 (fun _ _ => true) docC1 pC1 initState).2.2.fetchCount = 2
    ∧ ¬ ((sanitizeAssets cfgC1 (fun _ _ => true) docC1 pC1 initState).2.2.fetchCount = 1)
    ∧ (sanitizeAssets cfgC1 (fun _ _ => true) docC1 pC1 initState).2.2.downloadedAssets
        = [pathStr (ogPreviewPath cfgC1)] :=
  ⟨by decide, by decide, by decide⟩

/-- C1 amended: resolving an asset to a local path already resolved in the
same run performs a second network fetch and reports success exactly when
the new fetch succeeds; the DownloadedAsset set gains no duplicate entry,
so two tags referencing the same logical remote asset cause exactly two
network fetches and exactly one entry in the DownloadedAsset set. -/
theorem C1_amended_refetch_one_entry :
    (∀ (fetch : String → String → Bool) (url lp : String) (st : SanState),
      lp ∈ st.downloadedAssets →
      (downloadAsset fetch url lp st).2.fetchCount = st.fetchCount + 1
      ∧ (downloadAsset fetch url lp st).1 = fetch url lp
      ∧ (downloadAsset fetch url lp st).2.downloadedAssets = st.downloadedAssets)
    ∧ (∀ (cfg : SanConfig) (fetch : String → String → Bool) (doc : HtmlDoc)
        (p : PathM) (st : SanState) (url : String),
      doc.ogImage = some url →
      doc.twitterImage = some url →
      doc.iconLinks = [] →
      shouldDownloadAsset cfg url = true →
      fetch url (pathStr (ogPreviewPath cfg)) = true →
      (sanitizeAssets cfg fetch doc p st).2.2.fetchCount = st.fetchCount + 2
      ∧ (sanitizeAssets cfg fetch doc p st).2.2.downloadedAssets
          = setAdd st.downloadedAssets (pathStr (ogPreviewPath cfg))) := by
  constructor
  · intro fetch url lp st hmem
    refine ⟨downloadAsset_fetchCount fetch url lp st,
      downloadAsset_fst fetch url lp st, ?_⟩
    rw [downloadAsset_assets]
    by_cases h : fetch url lp
    · simp [h, setAdd_of_mem _ _ hmem]
    · simp [h]
  · intro cfg fetch doc p st url h1 h2 h3 h4 h5
    unfold sanitizeAssets
    rw [h3]
    simp only [iconPass]
    constructor
    · simp [ogPass, twitterPass, h1, h2, h4, downloadAsset, h5, logMsg]
    · simp [ogPass, twitterPass, h1, h2, h4, downloadAsset, h5, logMsg,
        setAdd_setAdd_self]

/-- C1 amended witness: a path already in the set is not added again, and
the concrete og+twitter double reference yields two fetches on top of the
initial state and the single shared set entry. -/
theorem C1_amended_witness :
    (downloadAsset (fun _ _ => true) "https://vendor.example/x.png"
        "assets/x.png" stWithAsset).2.downloadedAssets
      = stWithAsset.downloadedAssets
    ∧ (sanitizeAssets cfgC1 (fun _ _ => true) docC1 pC1 initState).2.2.fetchCount
      = initState.fetchCount + 2 :=
  ⟨((C1_amended_refetch_one_entry.1 (fun _ _ => true)
      "https://vendor.example/x.png" "assets/x.png" stWithAsset (by decide))).2.2,
    ((C1_amended_refetch_one_entry.2 cfgC1 (fun _ _ => true) docC1 pC1 initState
      "https://vendor.example/preview.png" rfl rfl rfl (by decide) (by decide))).1⟩

/-- C3: a failed asset fetch leaves the referencing attribute at its
original remote value and counts no change — for the og:image block, the
twitter:image block, and each icon link — and in the full pipeline the
og:image content survives unchanged while the file is still written iff
the total change counter (to which the failed asset contributes nothing,
the asset count decomposing into icon and twitter parts only) is
positive. -/
theorem C3_fetch_failure_isolated :
    (∀ (cfg : SanConfig) (fetch : String → String → Bool) (doc : HtmlDoc)
        (p : PathM) (st : SanState) (url : String),
      doc.ogImage = some url →
      shouldDownloadAsset cfg url = true →
      fetch url (pathStr (ogPreviewPath cfg)) = false →
      (ogPass cfg fetch doc p st).1 = doc ∧ (ogPass cfg fetch doc p st).2.1 = 0)
    ∧ (∀ (cfg : SanConfig) (fetch : String → String → Bool) (doc : HtmlDoc)
        (p : PathM) (st : SanState) (url : String),
      doc.twitterImage = some url →
      shouldDownloadAsset cfg url = true →
      fetch url (pathStr (ogPreviewPath cfg)) = false →
      (twitterPass cfg fetch doc p st).1 = doc
      ∧ (twitterPass cfg fetch doc p st).2.1 = 0)
    ∧ (∀ (cfg : SanConfig) (fetch : String → String → Bool) (p : PathM)
        (l : IconLink) (st : SanState),
      shouldDownloadAsset cfg l.href = true →
      fetch l.href
        (pathStr (cfg.assets.localPath.child (faviconFilename l.href l.tagStr))) = false →
      (processIconLink cfg fetch p l st).1 = l
      ∧ (processIconLink cfg fetch p l st).2.1 = 0)
    ∧ (∀ (prim : Prims) (cfg : SanConfig) (fetch : String → String → Bool)
        (p : PathM) (content : String) (st : SanState) (url : String),
      (sanitizeMetadata prim cfg (prim.parse (sanitizeCss prim content).1) p).1.ogImage
        = some url →
      shouldDownloadAsset cfg url = true →
      fetch url (pathStr (ogPreviewPath cfg)) = false →
      (processDoc prim cfg fetch p content st).1.ogImage = some url
      ∧ ((processFile prim cfg fetch p content st).1 = FileOutcome.unchanged ↔
          (processDoc prim cfg fetch p content st).2.1 = 0)) := by
  refine ⟨?_, ?_, ?_, ?_⟩
  · intro cfg fetch doc p st url h1 h2 h3
    exact ogPass_fail cfg fetch doc p st url h1 h2 h3
  · intro cfg fetch doc p st url h1 h2 h3
    unfold twitterPass
    rw [h1]
    simp [h2, downloadAsset_fst, h3]
  · intro cfg fetch p l st h1 h2
    unfold processIconLink
    simp [h1, downloadAsset_fst, h2]
  · intro prim cfg fetch p content st url h1 h2 h3
    constructor
    · show (sanitizeAttributes cfg _).1.ogImage = some url
      rw [sanitizeAttributes_ogImage]
      exact sanitizeAssets_ogImage_of_fail cfg fetch _ p st url h1 h2 h3
    · unfold processFile
      by_cases h : 0 < (processDoc prim cfg fetch p content st).2.1
      · simp [h]
        omega
      · simp [h]
        omega

/-- C3 witness: with a failing network, the concrete document keeps its
remote og:image URL while the title overwrite still makes the file
serialize. -/
theorem C3_witness :
    (processDoc primC3 cfgC1 (fun _ _ => false) pC1 "x" initState).1.ogImage
      = some "https://vendor.example/preview.png"
    ∧ ¬ ((processFile primC3 cfgC1 (fun _ _ => false) pC1 "x" initState).1
        = FileOutcome.unchanged) := by
  have h := C3_fetch_failure_isolated.2.2.2 primC3 cfgC1 (fun _ _ => false)
    pC1 "x" initState "https://vendor.example/preview.png"
    (by decide) (by decide) (by decide)
  refine ⟨h.1, ?_⟩
  intro hc
  have := h.2.mp hc
  revert this
  decide

/-- C4: an error raised while processing one file is caught by the run
loop, logged at ERROR level, and processing continues with the remaining
files; no per-file error aborts the run, and the run always completes,
producing the report of the fully folded state. -/
theorem C4_per_file_errors_isolated (prim : Prims) (cfg : SanConfig)
    (fetch : String → String → Bool) (p : PathM) (e : String)
    (pre post : List FileJob) (st : SanState) :
    runFiles prim cfg fetch (pre ++ (p, Except.error e) :: post) st
      = runFiles prim cfg fetch post
          (logMsg (runFiles prim cfg fetch pre st) LogLevel.ERROR
            ("Error processing " ++ pathStr p ++ ": " ++ e))
    ∧ runSanitizer prim cfg fetch (pre ++ (p, Except.error e) :: post) st
      = generateReport
          (runFiles prim cfg fetch post
            (logMsg (runFiles prim cfg fetch pre st) LogLevel.ERROR
              ("Error processing " ++ pathStr p ++ ": " ++ e))) := by
  have h := runFiles_append prim cfg fetch pre ((p, Except.error e) :: post) st
  constructor
  · rw [h]
    rfl
  · unfold runSanitizer
    rw [h]
    rfl
